import Mathlib

/-!
Verification development for the vault-vector-dpe repository.

The repository ships four Python validation scripts (validate_sap.py,
validate_plugin.py, validate_hardening.py, scripts/verify_release.py) that
exercise a Vault secrets-engine plugin performing Distance-Preserving
Encryption (DPE) of embedding vectors.  The plugin itself (Go code under
cmd/) is not part of the checked sources, so its two operations,
config/rotate and encrypt/vector, are modelled here from the specification;
the scripts' own checks are translated directly from their Python source.

Real-number arithmetic idealises the scripts' float arithmetic throughout.
-/

namespace VectorDPE

open scoped RealInnerProductSpace

/-- Modelled from the spec: the error taxonomy of §7 for the plugin operations
(the plugin's Go implementation is not under src/).  `invalidDimension`,
`invalidConfig` are rotate-time client errors; `unconfigured`,
`dimensionMismatch`, `malformedVector` are encrypt-time client errors. -/
inductive EngineError where
  | invalidDimension
  | invalidConfig
  | unconfigured
  | dimensionMismatch
  | malformedVector
deriving DecidableEq, Repr

/-- Modelled from the spec: an element of a request vector is either a finite
real number or one of the non-finite IEEE values NaN / +Infinity / -Infinity
(§3: a vector must have "all finite (no NaN/Inf)" elements). -/
inductive RVal where
  | finite (x : ℝ)
  | nan
  | inf
  | neginf

/-- Whether a request-vector element is a finite real (spec §4.3: the Vector
Validator rejects NaN and ±Infinity). -/
def RVal.isFinite : RVal → Bool
  | .finite _ => true
  | .nan => false
  | .inf => false
  | .neginf => false

/-- The real number carried by a finite element (0 for non-finite elements;
never reached on validated vectors). -/
def RVal.toReal : RVal → ℝ
  | .finite x => x
  | .nan => 0
  | .inf => 0
  | .neginf => 0

/-- Modelled from the spec: a configuration snapshot (§3 data model) —
dimension, scaling factor `s`, approximation factor `β`, version counter and
the secret transform key (a dimension × dimension matrix, kept abstract as a
function on indices).  Immutable once created. -/
structure Snapshot where
  dimension : ℕ
  scaling_factor : ℝ
  approximation_factor : ℝ
  version : ℕ
  transform_key : ℕ → ℕ → ℝ

/-- Modelled from the spec: a config/rotate request; all three fields are
optional (§4.1, §6). -/
structure RotateRequest where
  dimension : Option ℕ
  scaling_factor : Option ℝ
  approximation_factor : Option ℝ

/-- Modelled from the spec: a config/rotate response echoes the effective
dimension, scaling_factor and approximation_factor and nothing else — in
particular the type has no field for key material (§4.1, §6). -/
structure RotateResponse where
  dimension : ℕ
  scaling_factor : ℝ
  approximation_factor : ℝ

/-- Modelled from the spec: the effective scaling factor of a rotate request —
the request's value if supplied, else the prior snapshot's, else the
documented default constant (§4.1). -/
noncomputable def effScaling (st : Option Snapshot) (req : RotateRequest)
    (defaultScaling : ℝ) : ℝ :=
  req.scaling_factor.getD ((st.map Snapshot.scaling_factor).getD defaultScaling)

/-- Modelled from the spec: the effective approximation factor of a rotate
request (§4.1). -/
noncomputable def effApprox (st : Option Snapshot) (req : RotateRequest)
    (defaultApprox : ℝ) : ℝ :=
  req.approximation_factor.getD ((st.map Snapshot.approximation_factor).getD defaultApprox)

/-- Modelled from the spec: the version counter of the next snapshot —
monotonically increasing, starting above the unconfigured state (§3). -/
def nextVersion (st : Option Snapshot) : ℕ :=
  (st.map Snapshot.version).getD 0 + 1

/-- Modelled from the spec (§4.1 Configuration Manager): config/rotate.
Takes the current state (`none` before the first rotate), the request, the
documented default constants for the two factors, and the freshly generated
transform key (randomness made an explicit dependency, spec §9).  Validates
the effective dimension against 1 ≤ d ≤ 8192 (`invalidDimension`), the
effective scaling factor > 0 and approximation factor ≥ 0 (`invalidConfig`);
on any validation error the state is returned unchanged.  On success the new
snapshot becomes current and the response echoes the effective configuration,
never the key. -/
noncomputable def rotate (st : Option Snapshot) (req : RotateRequest)
    (defaultScaling defaultApprox : ℝ) (freshKey : ℕ → ℕ → ℝ) :
    Option Snapshot × Except EngineError RotateResponse :=
  match req.dimension.orElse (fun _ => st.map Snapshot.dimension) with
  | none => (st, .error .invalidDimension)
  | some d =>
    if d < 1 ∨ 8192 < d then (st, .error .invalidDimension)
    else if effScaling st req defaultScaling ≤ 0 then (st, .error .invalidConfig)
    else if effApprox st req defaultApprox < 0 then (st, .error .invalidConfig)
    else
      (some { dimension := d
              scaling_factor := effScaling st req defaultScaling
              approximation_factor := effApprox st req defaultApprox
              version := nextVersion st
              transform_key := freshKey },
       .ok { dimension := d
             scaling_factor := effScaling st req defaultScaling
             approximation_factor := effApprox st req defaultApprox })

/-- Modelled from the spec (§4.4 Encryption Engine): component `i` of the
deterministic part of the SAP transform, `s * (M v)ᵢ` — the scaled
matrix-vector product, before the noise is added. -/
noncomputable def sapComponent (snap : Snapshot) (vr : List ℝ) (i : ℕ) : ℝ :=
  snap.scaling_factor *
    ∑ j ∈ Finset.range snap.dimension, snap.transform_key i j * vr.getD j 0

/-- Modelled from the spec (§4.3 Vector Validator and §4.4 Encryption Engine):
encrypt/vector.  With no snapshot the request fails `unconfigured`; a length
mismatch fails `dimensionMismatch`; a NaN/±Infinity element fails
`malformedVector` before any transformation; otherwise the ciphertext is
`s · M · v + noise` componentwise, with the per-request noise draw passed in
explicitly (spec §9: randomness as an explicit dependency). -/
noncomputable def encryptVector (st : Option Snapshot) (v : List RVal)
    (noise : ℕ → ℝ) : Except EngineError (List ℝ) :=
  match st with
  | none => .error .unconfigured
  | some snap =>
    if v.length ≠ snap.dimension then .error .dimensionMismatch
    else if v.all RVal.isFinite then
      .ok ((List.range snap.dimension).map fun i =>
        sapComponent snap (v.map RVal.toReal) i + noise i)
    else .error .malformedVector

/-! ## Script-side arithmetic (translated from the numpy calls in src/) -/

/-- Elementwise dot product of two equal-length float lists (np.dot as used on
1-D arrays in validate_sap.py line 80, validate_plugin.py line 65). -/
noncomputable def dotList (a b : List ℝ) : ℝ :=
  (a.zipWith (· * ·) b).sum

/-- Euclidean norm of a float list (np.linalg.norm, validate_sap.py
lines 74/116-117 and elsewhere). -/
noncomputable def l2norm (a : List ℝ) : ℝ :=
  Real.sqrt ((a.map fun x => x ^ 2).sum)

/-- Elementwise difference of two equal-length float lists (numpy `-` on
arrays, validate_sap.py line 116, validate_plugin.py line 115). -/
def subList (a b : List ℝ) : List ℝ :=
  a.zipWith (· - ·) b

/-- Elementwise division of a list by a scalar (numpy `/`, used to normalize
ciphertexts before cosine similarity, validate_sap.py lines 90-91). -/
noncomputable def normalizeList (a : List ℝ) : List ℝ :=
  a.map fun x => x / l2norm a

/-- np.allclose with its default tolerances rtol = 1e-5, atol = 1e-8: the two
arrays have equal length and every pair of elements satisfies
|a i - b i| ≤ atol + rtol * |b i| (validate_sap.py line 60,
validate_hardening.py line 95, verify_release.py line 245). -/
def allclose (a b : List ℝ) : Prop :=
  a.length = b.length ∧
    ∀ i < a.length, |a.getD i 0 - b.getD i 0| ≤ 1e-8 + 1e-5 * |b.getD i 0|

/-- Outcome of one of the scripts' checks: `pass` prints a PASS line and the
script continues; `fail` reaches a sys.exit(1) call. -/
inductive CheckOutcome where
  | pass
  | fail
deriving DecidableEq, Repr

open Classical

/-- validate_sap.py lines 60-64 (Check 1, probabilistic encryption): the run
continues iff np.allclose(c1, c2) is false, else it exits with failure. -/
noncomputable def sapCheck1 (c1 c2 : List ℝ) : CheckOutcome :=
  if allclose c1 c2 then .fail else .pass

/-- validate_sap.py lines 94-107 (Check 2, drift analysis): with
drift = |sim_plain - sim_cipher|, the run continues iff 0 < drift < 0.1; both
the drift = 0 branch and the drift ≥ 0.1 branch exit with failure. -/
noncomputable def sapCheck2 (simPlain simCipher : ℝ) : CheckOutcome :=
  if 0 < |simPlain - simCipher| ∧ |simPlain - simCipher| < 0.1 then .pass
  else .fail

/-- validate_sap.py lines 121-133 (Check 3, scaling factor compliance): with
ratio = dist_cipher / dist_plain and expected_ratio = 10.0, the run continues
iff |ratio - expected_ratio| < 0.2 * expected_ratio. -/
noncomputable def sapCheck3 (distPlain distCipher : ℝ) : CheckOutcome :=
  if |distCipher / distPlain - 10.0| < 0.2 * 10.0 then .pass
  else .fail

/-- scripts/verify_release.py lines 236-251 (phase 5): the phase exits with
failure iff np.allclose(c1, c2) — i.e. iff the two ciphertexts of the same
sample vector are elementwise close. -/
noncomputable def phase_5_check (c1 c2 : List ℝ) : CheckOutcome :=
  if allclose c1 c2 then .fail else .pass

/-- validate_plugin.py lines 83-122: the final check cascade of main().  The
probabilistic check fails iff np.allclose(enc_a1, enc_a2); then the utility
check requires drift < 0.05 where drift compares np.dot(vec_a, vec_b) with the
dot product of the two normalized ciphertexts; then the privacy check requires
np.linalg.norm(vec_a - enc_a1) > 0.1.  Any failing check exits the run. -/
noncomputable def pluginChecks (vecA vecB encA1 encA2 encB : List ℝ) : CheckOutcome :=
  if allclose encA1 encA2 then .fail
  else if |dotList vecA vecB - dotList (normalizeList encA1) (normalizeList encB)| < 0.05 then
    if l2norm (subList vecA encA1) > 0.1 then .pass else .fail
  else .fail

/-- Outcome of one client.write call as validate_hardening.py observes it:
the call returns normally, raises hvac.exceptions.InvalidRequest (a 4xx
rejection), or raises some other exception type (e.g. a transport failure),
identified only by its type name. -/
inductive WriteOutcome where
  | ok
  | invalidRequest
  | otherException (typeName : String)
deriving DecidableEq, Repr

/-- validate_hardening.py lines 35-42 (Test A, oversized dimension): a normal
return exits with failure; an InvalidRequest is a PASS; any other exception
type is also counted as a PASS. -/
def testA_oversized_rotate : WriteOutcome → CheckOutcome
  | .ok => .fail
  | .invalidRequest => .pass
  | .otherException _ => .pass

/-- validate_hardening.py lines 67-80 (Test B, NaN / Infinity vectors): a
normal return exits with failure; the bare `except Exception` counts every
exception type as a PASS. -/
def testB_nonfinite_encrypt : WriteOutcome → CheckOutcome
  | .ok => .fail
  | .invalidRequest => .pass
  | .otherException _ => .pass

/-! ## Vector-space form of the SAP transform

The geometric claims (drift of cosine similarity, scaling of Euclidean
distance) are settled against the Encryption Engine equation of spec §4.4,
`ciphertext = s · M · vector + noise`, stated over a real inner product
space with the near-orthogonal matrix `M` idealised as a linear isometry
equivalence and the noise draw an explicit argument. -/

variable {E : Type*} [NormedAddCommGroup E] [InnerProductSpace ℝ E]

/-- Modelled from the spec (§4.4): the SAP ciphertext `s • M v + noise` of a
plaintext `v` under scaling factor `s`, transform `M` and a noise draw. -/
noncomputable def sapEncrypt (s : ℝ) (M : E ≃ₗᵢ[ℝ] E) (v n : E) : E :=
  s • M v + n

/-- Cosine similarity of two vectors, as the scripts compute it: the dot
product of the two normalized vectors (validate_sap.py lines 90-93). -/
noncomputable def cosSim (x y : E) : ℝ :=
  ⟪x, y⟫ / (‖x‖ * ‖y‖)

theorem cosSim_comm (x y : E) : cosSim x y = cosSim y x := by
  unfold cosSim
  rw [real_inner_comm, mul_comm]

theorem cosSim_self {x : E} (hx : x ≠ 0) : cosSim x x = 1 := by
  have hn : ‖x‖ ≠ 0 := norm_ne_zero_iff.mpr hx
  unfold cosSim
  rw [real_inner_self_eq_norm_mul_norm]
  exact div_self (mul_ne_zero hn hn)

theorem cosSim_smul_smul {x : E} (hx : x ≠ 0) {c d : ℝ} (hc : c ≠ 0) (hd : d ≠ 0) :
    cosSim (c • x) (d • x) = (c * d) / (|c| * |d|) := by
  have hn : ‖x‖ ≠ 0 := norm_ne_zero_iff.mpr hx
  have hca : |c| ≠ 0 := abs_ne_zero.mpr hc
  have hda : |d| ≠ 0 := abs_ne_zero.mpr hd
  unfold cosSim
  rw [real_inner_smul_left, real_inner_smul_right, real_inner_self_eq_norm_mul_norm,
    norm_smul, norm_smul, Real.norm_eq_abs, Real.norm_eq_abs]
  field_simp
  ring

/-- The deterministic part of SAP leaves cosine similarity unchanged: the
transform is an isometry and the positive scale cancels. -/
theorem cosSim_smul_map (M : E ≃ₗᵢ[ℝ] E) {s : ℝ} (hs : 0 < s) (a b : E) :
    cosSim (s • M a) (s • M b) = cosSim a b := by
  unfold cosSim
  rw [real_inner_smul_left, real_inner_smul_right, norm_smul, norm_smul,
    Real.norm_eq_abs, abs_of_pos hs, LinearIsometryEquiv.inner_map_map,
    LinearIsometryEquiv.norm_map, LinearIsometryEquiv.norm_map,
    show s * (s * ⟪a, b⟫) = s * s * ⟪a, b⟫ by ring,
    show s * ‖a‖ * (s * ‖b‖) = s * s * (‖a‖ * ‖b‖) by ring]
  exact mul_div_mul_left _ _ (by positivity)

omit [InnerProductSpace ℝ E] in
/-- A perturbation of relative size at most `ε` keeps a vector away from 0:
‖x + d‖ ≥ (1 - ε)‖x‖. -/
theorem norm_add_perturb_ge {x d : E} {ε : ℝ} (hd : ‖d‖ ≤ ε * ‖x‖) :
    (1 - ε) * ‖x‖ ≤ ‖x + d‖ := by
  have h1 : |‖x‖ - ‖x + d‖| ≤ ‖x - (x + d)‖ := abs_norm_sub_norm_le x (x + d)
  have h2 : ‖x - (x + d)‖ = ‖d‖ := by
    rw [show x - (x + d) = -d by abel, norm_neg]
  rw [h2] at h1
  have h3 : ‖x‖ - ‖x + d‖ ≤ ‖d‖ := (abs_le.mp h1).2
  nlinarith [norm_nonneg d, norm_nonneg x]

/-- Perturbing the first argument of cosine similarity by a vector of norm at
most `ε ‖x‖` (with `ε < 1`) moves it by at most `2ε / (1 - ε)`. -/
theorem abs_cosSim_add_sub_le {x y d : E} (hx : x ≠ 0) (hy : y ≠ 0)
    {ε : ℝ} (hε1 : ε < 1) (hd : ‖d‖ ≤ ε * ‖x‖) :
    |cosSim (x + d) y - cosSim x y| ≤ 2 * ε / (1 - ε) := by
  have hxn : (0 : ℝ) < ‖x‖ := norm_pos_iff.mpr hx
  have hyn : (0 : ℝ) < ‖y‖ := norm_pos_iff.mpr hy
  have hε0 : 0 ≤ ε := by nlinarith [norm_nonneg d]
  have hlow : (1 - ε) * ‖x‖ ≤ ‖x + d‖ := norm_add_perturb_ge hd
  have hxdpos : (0 : ℝ) < ‖x + d‖ := lt_of_lt_of_le (by nlinarith) hlow
  have key : cosSim (x + d) y - cosSim x y =
      (⟪d, y⟫ * ‖x‖ + ⟪x, y⟫ * (‖x‖ - ‖x + d‖)) / (‖x + d‖ * ‖x‖ * ‖y‖) := by
    unfold cosSim
    rw [inner_add_left]
    field_simp
    ring
  have hnum : |⟪d, y⟫ * ‖x‖ + ⟪x, y⟫ * (‖x‖ - ‖x + d‖)| ≤ 2 * ‖d‖ * ‖x‖ * ‖y‖ := by
    have hdy : |⟪d, y⟫| ≤ ‖d‖ * ‖y‖ := abs_real_inner_le_norm d y
    have hxy : |⟪x, y⟫| ≤ ‖x‖ * ‖y‖ := abs_real_inner_le_norm x y
    have hns : |‖x‖ - ‖x + d‖| ≤ ‖d‖ := by
      have h1 := abs_norm_sub_norm_le x (x + d)
      rwa [show x - (x + d) = -d by abel, norm_neg] at h1
    calc |⟪d, y⟫ * ‖x‖ + ⟪x, y⟫ * (‖x‖ - ‖x + d‖)|
        ≤ |⟪d, y⟫ * ‖x‖| + |⟪x, y⟫ * (‖x‖ - ‖x + d‖)| := abs_add _ _
      _ = |⟪d, y⟫| * ‖x‖ + |⟪x, y⟫| * |‖x‖ - ‖x + d‖| := by
          rw [abs_mul, abs_mul, abs_of_pos hxn]
      _ ≤ ‖d‖ * ‖y‖ * ‖x‖ + ‖x‖ * ‖y‖ * ‖d‖ :=
          add_le_add (mul_le_mul_of_nonneg_right hdy (norm_nonneg x))
            (mul_le_mul hxy hns (abs_nonneg _) (by positivity))
      _ = 2 * ‖d‖ * ‖x‖ * ‖y‖ := by ring
  calc |cosSim (x + d) y - cosSim x y|
      = |⟪d, y⟫ * ‖x‖ + ⟪x, y⟫ * (‖x‖ - ‖x + d‖)| / (‖x + d‖ * ‖x‖ * ‖y‖) := by
        rw [key, abs_div]
        congr 1
        exact abs_of_pos (by positivity)
    _ ≤ (2 * ‖d‖ * ‖x‖ * ‖y‖) / (‖x + d‖ * ‖x‖ * ‖y‖) :=
        (div_le_div_right (by positivity)).mpr hnum
    _ = 2 * ‖d‖ / ‖x + d‖ := by
        field_simp
        ring
    _ ≤ 2 * (ε * ‖x‖) / ((1 - ε) * ‖x‖) :=
        div_le_div (by positivity) (by nlinarith) (mul_pos (by linarith) hxn) hlow
    _ = 2 * ε / (1 - ε) := by
        rw [show 2 * (ε * ‖x‖) = 2 * ε * ‖x‖ by ring]
        exact mul_div_mul_right _ _ hxn.ne'

/-- Perturbing both arguments of cosine similarity by vectors of relative size
at most `ε < 1` moves it by at most `4ε / (1 - ε)`. -/
theorem abs_cosSim_add_add_sub_le {x y dx dy : E} (hx : x ≠ 0) (hy : y ≠ 0)
    {ε : ℝ} (hε1 : ε < 1) (hdx : ‖dx‖ ≤ ε * ‖x‖) (hdy : ‖dy‖ ≤ ε * ‖y‖) :
    |cosSim (x + dx) (y + dy) - cosSim x y| ≤ 4 * ε / (1 - ε) := by
  have hxn : (0 : ℝ) < ‖x‖ := norm_pos_iff.mpr hx
  have hε0 : 0 ≤ ε := by nlinarith [norm_nonneg dx]
  have hxdx : x + dx ≠ 0 := by
    have hlow : (1 - ε) * ‖x‖ ≤ ‖x + dx‖ := norm_add_perturb_ge hdx
    intro h
    rw [h, norm_zero] at hlow
    nlinarith
  have h1 : |cosSim (x + dx) (y + dy) - cosSim (x + dx) y| ≤ 2 * ε / (1 - ε) := by
    rw [cosSim_comm (x + dx) (y + dy), cosSim_comm (x + dx) y]
    exact abs_cosSim_add_sub_le hy hxdx hε1 hdy
  have h2 : |cosSim (x + dx) y - cosSim x y| ≤ 2 * ε / (1 - ε) :=
    abs_cosSim_add_sub_le hx hy hε1 hdx
  calc |cosSim (x + dx) (y + dy) - cosSim x y|
      ≤ |cosSim (x + dx) (y + dy) - cosSim (x + dx) y| +
        |cosSim (x + dx) y - cosSim x y| := abs_sub_le _ _ _
    _ ≤ 2 * ε / (1 - ε) + 2 * ε / (1 - ε) := add_le_add h1 h2
    _ = 4 * ε / (1 - ε) := by ring

/-- Drift bound for SAP: if each noise draw is at most `ε < 1` times the norm
of the corresponding scaled-transformed plaintext, the cosine-similarity
drift between ciphertexts and plaintexts is at most `4ε / (1 - ε)`. -/
theorem sap_cosSim_drift_le (M : E ≃ₗᵢ[ℝ] E) {s ε : ℝ} (hs : 0 < s)
    (hε1 : ε < 1) {a b na nb : E} (ha : a ≠ 0) (hb : b ≠ 0)
    (hna : ‖na‖ ≤ ε * ‖s • M a‖) (hnb : ‖nb‖ ≤ ε * ‖s • M b‖) :
    |cosSim (sapEncrypt s M a na) (sapEncrypt s M b nb) - cosSim a b| ≤
      4 * ε / (1 - ε) := by
  have hMa : s • M a ≠ 0 :=
    smul_ne_zero hs.ne' (fun h => ha (by simpa using M.map_eq_zero_iff.mp h))
  have hMb : s • M b ≠ 0 :=
    smul_ne_zero hs.ne' (fun h => hb (by simpa using M.map_eq_zero_iff.mp h))
  have h := abs_cosSim_add_add_sub_le hMa hMb hε1 hna hnb
  rwa [cosSim_smul_map M hs a b] at h

/-- Distance scaling for SAP: the ciphertext distance of two distinct
plaintexts deviates from `s ×` the plaintext distance by at most the norm of
the difference of the two noise draws; dividing, the observed ratio deviates
from `s` by at most `‖na - nb‖ / ‖a - b‖`. -/
theorem sap_dist_ratio_le (M : E ≃ₗᵢ[ℝ] E) {s : ℝ} (hs : 0 < s)
    {a b : E} (hab : a ≠ b) (na nb : E) :
    |‖sapEncrypt s M a na - sapEncrypt s M b nb‖ / ‖a - b‖ - s| ≤
      ‖na - nb‖ / ‖a - b‖ := by
  have h0 : (0 : ℝ) < ‖a - b‖ := norm_pos_iff.mpr (sub_ne_zero.mpr hab)
  have hdiff : sapEncrypt s M a na - sapEncrypt s M b nb =
      s • M (a - b) + (na - nb) := by
    unfold sapEncrypt
    rw [map_sub, smul_sub]
    abel
  have hbase : ‖s • M (a - b)‖ = s * ‖a - b‖ := by
    rw [norm_smul, Real.norm_eq_abs, abs_of_pos hs, LinearIsometryEquiv.norm_map]
  have habs : |‖sapEncrypt s M a na - sapEncrypt s M b nb‖ - s * ‖a - b‖| ≤
      ‖na - nb‖ := by
    rw [hdiff, ← hbase]
    have h1 := abs_norm_sub_norm_le (s • M (a - b) + (na - nb)) (s • M (a - b))
    rwa [add_sub_cancel_left] at h1
  have heq : ‖sapEncrypt s M a na - sapEncrypt s M b nb‖ / ‖a - b‖ - s =
      (‖sapEncrypt s M a na - sapEncrypt s M b nb‖ - s * ‖a - b‖) / ‖a - b‖ := by
    field_simp
    ring
  rw [heq, abs_div, abs_of_pos h0]
  exact div_le_div_of_nonneg_right habs h0.le

/-- The drift bound `4ε / (1 - ε)` is monotone in `ε` on `[0, 1)`: a smaller
noise-to-signal ratio (smaller `approximation_factor`) gives a smaller
bound. -/
theorem driftBound_mono {a b : ℝ} (ha : 0 ≤ a) (hab : a ≤ b) (hb : b < 1) :
    4 * a / (1 - a) ≤ 4 * b / (1 - b) := by
  have h1 : (0 : ℝ) < 1 - a := by linarith
  have h2 : (0 : ℝ) < 1 - b := by linarith
  rw [div_le_div_iff h1 h2]
  nlinarith

/-! ## Helper lemmas about the modelled operations -/

theorem getD_range_map {n : ℕ} (f : ℕ → ℝ) {i : ℕ} (hi : i < n) :
    ((List.range n).map f).getD i 0 = f i := by
  rw [List.getD_eq_getElem?_getD, List.getElem?_map, List.getElem?_range hi]
  rfl

/-- Inversion for a successful encrypt: the vector passed both validation
gates and the ciphertext is the componentwise SAP transform. -/
theorem encryptVector_ok_inv {snap : Snapshot} {v : List RVal} {noise : ℕ → ℝ}
    {c : List ℝ} (h : encryptVector (some snap) v noise = .ok c) :
    v.length = snap.dimension ∧ v.all RVal.isFinite = true ∧
      c = (List.range snap.dimension).map
        fun i => sapComponent snap (v.map RVal.toReal) i + noise i := by
  unfold encryptVector at h
  by_cases h1 : v.length = snap.dimension
  · by_cases h2 : v.all RVal.isFinite
    · refine ⟨h1, h2, ?_⟩
      simp only [h1, ne_eq, not_true_eq_false, if_false, h2, if_true] at h
      exact (Except.ok.injEq _ _ ▸ h).symm
    · simp [h1, h2] at h
  · simp [h1] at h

/-! ## Claim theorems -/

/-- C4: every rotate request whose requested dimension lies outside [1, 8192]
(e.g. dimension = 100000, validate_hardening.py Test A) is rejected with
`invalidDimension` and performs no state change — the prior configuration, if
any, stays current (spec §4.1, §8). -/
theorem rotate_out_of_range_rejected (st : Option Snapshot) (req : RotateRequest)
    (defaultScaling defaultApprox : ℝ) (freshKey : ℕ → ℕ → ℝ) (d : ℕ)
    (hreq : req.dimension = some d) (hout : d < 1 ∨ 8192 < d) :
    rotate st req defaultScaling defaultApprox freshKey =
      (st, .error .invalidDimension) := by
  unfold rotate
  rw [hreq]
  show (if d < 1 ∨ 8192 < d then _ else _) = _
  rw [if_pos hout]

/-- A concrete configured state: the snapshot validate_hardening.py installs
(dimension 1536, s = 10, β = 2), with a placeholder key. -/
noncomputable def hardeningSnapshot : Snapshot :=
  { dimension := 1536, scaling_factor := 10, approximation_factor := 2,
    version := 1, transform_key := fun _ _ => 0 }

/-- Witness for C4: rotate(dimension = 100000) against the configured state is
rejected with `invalidDimension` and the prior snapshot stays current. -/
theorem rotate_out_of_range_rejected_witness :
    rotate (some hardeningSnapshot) ⟨some 100000, none, none⟩ 10 2 (fun _ _ => 0) =
      (some hardeningSnapshot, .error .invalidDimension) :=
  rotate_out_of_range_rejected _ _ _ _ _ 100000 rfl (Or.inr (by norm_num))

/-- C5: every vector containing a NaN or ±Infinity element is rejected by
encrypt/vector with `malformedVector`, before any transformation is performed
(spec §4.3, §8; validate_hardening.py Test B).  The length hypothesis keeps
the vector from being caught by the earlier `dimensionMismatch` gate. -/
theorem encrypt_nonfinite_rejected (snap : Snapshot) (v : List RVal)
    (noise : ℕ → ℝ) (hlen : v.length = snap.dimension)
    (hbad : ∃ x ∈ v, x.isFinite = false) :
    encryptVector (some snap) v noise = .error .malformedVector := by
  obtain ⟨x, hxv, hxf⟩ := hbad
  have hall : ¬ v.all RVal.isFinite = true := by
    rw [List.all_eq_true]
    intro hforall
    rw [hforall x hxv] at hxf
    simp at hxf
  unfold encryptVector
  simp [hlen, hall]

/-- A small concrete configured state used by the C5 witness. -/
noncomputable def smallSnapshot : Snapshot :=
  { dimension := 3, scaling_factor := 10, approximation_factor := 2,
    version := 1, transform_key := fun _ _ => 0 }

/-- Witness for C5: a length-3 vector whose second element is NaN is rejected
with `malformedVector`. -/
theorem encrypt_nonfinite_rejected_witness :
    encryptVector (some smallSnapshot)
        [RVal.finite 0.1, RVal.nan, RVal.finite 0.1] (fun _ => 0) =
      .error .malformedVector :=
  encrypt_nonfinite_rejected _ _ _ rfl
    ⟨RVal.nan, List.mem_cons_of_mem _ (List.mem_cons_self _ _), rfl⟩

/-- Sanity check that the success path of the modelled engine is reachable:
with the all-zero key rows of `smallSnapshot` and the constant-1 noise draw, a
well-formed length-3 vector is accepted and the ciphertext is [1, 1, 1], so
the `.ok` hypotheses of the encrypt theorems below are satisfiable. -/
theorem encryptVector_succeeds_example :
    encryptVector (some smallSnapshot)
        [RVal.finite 1, RVal.finite 0, RVal.finite 0] (fun _ => 1) =
      .ok [1, 1, 1] := by
  rw [show encryptVector (some smallSnapshot)
        [RVal.finite 1, RVal.finite 0, RVal.finite 0] (fun _ => 1) =
      if [RVal.finite 1, RVal.finite 0, RVal.finite 0].length ≠
          smallSnapshot.dimension then .error .dimensionMismatch
      else if [RVal.finite 1, RVal.finite 0, RVal.finite 0].all RVal.isFinite then
        .ok ((List.range smallSnapshot.dimension).map fun i =>
          sapComponent smallSnapshot
            ([RVal.finite 1, RVal.finite 0, RVal.finite 0].map RVal.toReal) i +
            (fun _ => (1 : ℝ)) i)
      else .error .malformedVector from rfl]
  rw [if_neg (by simp [smallSnapshot]), if_pos (by simp [RVal.isFinite])]
  simp [smallSnapshot, sapComponent, List.range_succ]

/-- C6: every accepted config/rotate call echoes exactly the effective
(possibly defaulted) dimension, scaling_factor and approximation_factor of
the snapshot it installs, and never key material (the `RotateResponse` type
has no key field).  In particular rotate(1536, 10.0, 5.0) — the
verify_release.py phase 3 scenario — returns exactly those three values. -/
theorem rotate_echoes_effective_config :
    (∀ (st : Option Snapshot) (defaultScaling defaultApprox : ℝ)
        (freshKey : ℕ → ℕ → ℝ),
      (rotate st ⟨some 1536, some 10, some 5⟩ defaultScaling defaultApprox
          freshKey).2 = .ok ⟨1536, 10, 5⟩) ∧
    (∀ (st : Option Snapshot) (req : RotateRequest)
        (defaultScaling defaultApprox : ℝ) (freshKey : ℕ → ℕ → ℝ)
        (st' : Option Snapshot) (resp : RotateResponse),
      rotate st req defaultScaling defaultApprox freshKey = (st', .ok resp) →
      ∃ snap : Snapshot, st' = some snap ∧
        resp.dimension = snap.dimension ∧
        resp.scaling_factor = snap.scaling_factor ∧
        resp.approximation_factor = snap.approximation_factor ∧
        resp.scaling_factor = effScaling st req defaultScaling ∧
        resp.approximation_factor = effApprox st req defaultApprox) := by
  constructor
  · intro st dS dB key
    have h1 : effScaling st ⟨some 1536, some 10, some 5⟩ dS = 10 := rfl
    have h2 : effApprox st ⟨some 1536, some 10, some 5⟩ dB = 5 := rfl
    unfold rotate
    show ((if (1536 : ℕ) < 1 ∨ 8192 < 1536 then _ else _ :
        Option Snapshot × Except EngineError RotateResponse)).2 = _
    rw [if_neg (by norm_num), h1, h2, if_neg (by norm_num), if_neg (by norm_num)]
  · intro st req dS dB key st' resp h
    unfold rotate at h
    split at h
    · simp [Prod.ext_iff] at h
    · split at h
      · simp [Prod.ext_iff] at h
      · split at h
        · simp [Prod.ext_iff] at h
        · split at h
          · simp [Prod.ext_iff] at h
          · injection h with h1 h2
            injection h2 with h3
            exact ⟨_, h1.symm, by rw [← h3], by rw [← h3], by rw [← h3],
              by rw [← h3], by rw [← h3]⟩

/-- C7: every accepted encrypt/vector call returns a ciphertext whose length
equals the dimension of the snapshot in effect, whose serialized elements are
all finite reals, and which differs from the input vector for every noise
draw other than the single degenerate one (`noise i = vᵢ - s (M v)ᵢ`
somewhere below the dimension), a probability-0 event in the idealized noise
model (spec §3 Ciphertext, §8; verify_release.py phase 4). -/
theorem encrypt_output_wellformed :
    (∀ (snap : Snapshot) (v : List RVal) (noise : ℕ → ℝ) (c : List ℝ),
      encryptVector (some snap) v noise = .ok c → c.length = snap.dimension) ∧
    (∀ (snap : Snapshot) (v : List RVal) (noise : ℕ → ℝ) (c : List ℝ),
      encryptVector (some snap) v noise = .ok c →
        ∀ x ∈ c.map RVal.finite, x.isFinite = true) ∧
    (∀ (snap : Snapshot) (v : List RVal) (noise : ℕ → ℝ) (c : List ℝ),
      encryptVector (some snap) v noise = .ok c →
      (∃ i < snap.dimension,
          noise i ≠ (v.map RVal.toReal).getD i 0 -
            sapComponent snap (v.map RVal.toReal) i) →
      c ≠ v.map RVal.toReal) := by
  refine ⟨?_, ?_, ?_⟩
  · intro snap v noise c h
    obtain ⟨-, -, hc⟩ := encryptVector_ok_inv h
    simp [hc]
  · intro snap v noise c h x hx
    obtain ⟨y, -, rfl⟩ := List.mem_map.mp hx
    rfl
  · intro snap v noise c h ⟨i, hi, hne⟩ heq
    obtain ⟨hlen, -, hc⟩ := encryptVector_ok_inv h
    apply hne
    have h1 : c.getD i 0 =
        sapComponent snap (v.map RVal.toReal) i + noise i := by
      rw [hc]
      exact getD_range_map _ hi
    rw [heq] at h1
    linarith

/-- C8: before any successful rotate there is no usable default
configuration: encrypt/vector fails with `unconfigured` on the unconfigured
state, a successful encrypt implies a snapshot is current, and rotate is the
only operation that can make one current (it never clears the state)
(spec §3 lifecycle, §6, §7). -/
theorem encrypt_requires_configuration :
    (∀ (v : List RVal) (noise : ℕ → ℝ),
      encryptVector none v noise = .error .unconfigured) ∧
    (∀ (st : Option Snapshot) (v : List RVal) (noise : ℕ → ℝ) (c : List ℝ),
      encryptVector st v noise = .ok c → ∃ snap, st = some snap) ∧
    (∀ (st : Option Snapshot) (req : RotateRequest) (dS dB : ℝ)
        (key : ℕ → ℕ → ℝ) (st' : Option Snapshot)
        (r : Except EngineError RotateResponse),
      rotate st req dS dB key = (st', r) → st' = none → st = none) := by
  refine ⟨fun v noise => rfl, ?_, ?_⟩
  · rintro (_ | snap) v noise c h
    · simp [encryptVector] at h
    · exact ⟨snap, rfl⟩
  · intro st req dS dB key st' r h hnone
    unfold rotate at h
    split at h
    · injection h with h1 h2
      rw [h1, hnone]
    · split at h
      · injection h with h1 h2
        rw [h1, hnone]
      · split at h
        · injection h with h1 h2
          rw [h1, hnone]
        · split at h
          · injection h with h1 h2
            rw [h1, hnone]
          · injection h with h1 h2
            rw [hnone] at h1
            simp at h1

/-- C1: for a fixed vector and fixed snapshot, two encrypt calls whose noise
draws differ anywhere below the dimension — the probability-1 event for two
independent draws in the idealized noise model — produce ciphertexts that are
not elementwise equal; and the validation scripts (validate_sap.py Check 1,
verify_release.py phase 5) fail whenever the two ciphertexts are elementwise
close in the np.allclose sense. -/
theorem encrypt_probabilistic :
    (∀ (snap : Snapshot) (v : List RVal) (n₁ n₂ : ℕ → ℝ) (c₁ c₂ : List ℝ),
      encryptVector (some snap) v n₁ = .ok c₁ →
      encryptVector (some snap) v n₂ = .ok c₂ →
      (∃ i < snap.dimension, n₁ i ≠ n₂ i) → c₁ ≠ c₂) ∧
    (∀ c₁ c₂ : List ℝ, sapCheck1 c₁ c₂ = .pass ↔ ¬ allclose c₁ c₂) ∧
    (∀ c₁ c₂ : List ℝ, allclose c₁ c₂ → sapCheck1 c₁ c₂ = .fail) ∧
    (∀ c₁ c₂ : List ℝ, allclose c₁ c₂ → phase_5_check c₁ c₂ = .fail) := by
  refine ⟨?_, ?_, ?_, ?_⟩
  · intro snap v n₁ n₂ c₁ c₂ h1 h2 ⟨i, hi, hne⟩ heq
    obtain ⟨-, -, hc₁⟩ := encryptVector_ok_inv h1
    obtain ⟨-, -, hc₂⟩ := encryptVector_ok_inv h2
    apply hne
    have e1 : c₁.getD i 0 =
        sapComponent snap (v.map RVal.toReal) i + n₁ i := by
      rw [hc₁]; exact getD_range_map _ hi
    have e2 : c₂.getD i 0 =
        sapComponent snap (v.map RVal.toReal) i + n₂ i := by
      rw [hc₂]; exact getD_range_map _ hi
    rw [heq, e2] at e1
    linarith
  · intro c₁ c₂
    by_cases hac : allclose c₁ c₂ <;> simp [sapCheck1, hac]
  · intro c₁ c₂ hac
    simp [sapCheck1, hac]
  · intro c₁ c₂ hac
    simp [phase_5_check, hac]

/-- The embedding space of the numeric scenarios: ℝ^1536, the dimension every
script configures. -/
abbrev EmbVec : Type := EuclideanSpace ℝ (Fin 1536)

/-- The snapshot of the validate_sap.py scenario: dimension 1536, s = 10,
β = 2, with a placeholder key. -/
noncomputable def sapSnapshot : Snapshot :=
  { dimension := 1536, scaling_factor := 10, approximation_factor := 2,
    version := 1, transform_key := fun _ _ => 0 }

/-- A concrete nonzero plaintext in ℝ^1536: the first standard basis
vector. -/
noncomputable def ceVec : EmbVec := EuclideanSpace.single 0 1

/-- First adversarial noise draw of the C2 counterexample (in the support of
the idealized zero-mean Gaussian noise model for any β > 0). -/
noncomputable def ceNoiseA : EmbVec := (10 : ℝ) • ceVec

/-- Second adversarial noise draw of the C2 counterexample. -/
noncomputable def ceNoiseB : EmbVec := (-20 : ℝ) • ceVec

/-- The cosine-similarity drift realised when the plaintext pair
(ceVec, ceVec) is encrypted under sapSnapshot's scaling factor with the two
noise draws above (transform: the identity isometry, which is admissible as a
near-orthogonal matrix). -/
noncomputable def ceDrift : ℝ :=
  |cosSim ceVec ceVec -
    cosSim
      (sapEncrypt sapSnapshot.scaling_factor
        (LinearIsometryEquiv.refl ℝ EmbVec) ceVec ceNoiseA)
      (sapEncrypt sapSnapshot.scaling_factor
        (LinearIsometryEquiv.refl ℝ EmbVec) ceVec ceNoiseB)|

theorem ceVec_ne_zero : ceVec ≠ 0 := by
  have h : ‖ceVec‖ = 1 := by
    unfold ceVec
    rw [EuclideanSpace.norm_single, norm_one]
  intro h0
  rw [h0, norm_zero] at h
  norm_num at h

/-- Counterexample to C2 as stated: under a snapshot with dimension 1536 and
β = 2 there are noise draws (both possible in the idealized noise model,
whose Gaussian support is unbounded for every β > 0) for which the drift is
2, not strictly below 0.1 — the claimed drift window (0, 0.1) is violated. -/
theorem sap_drift_window_counterexample :
    ceDrift = 2 ∧ ¬ (0 < ceDrift ∧ ceDrift < 0.1) := by
  have hne := ceVec_ne_zero
  have hs : sapSnapshot.scaling_factor = (10 : ℝ) := rfl
  have hA : sapEncrypt sapSnapshot.scaling_factor
      (LinearIsometryEquiv.refl ℝ EmbVec) ceVec ceNoiseA = (20 : ℝ) • ceVec := by
    unfold sapEncrypt ceNoiseA
    rw [hs, LinearIsometryEquiv.coe_refl, id_eq, ← add_smul]
    norm_num
  have hB : sapEncrypt sapSnapshot.scaling_factor
      (LinearIsometryEquiv.refl ℝ EmbVec) ceVec ceNoiseB = (-10 : ℝ) • ceVec := by
    unfold sapEncrypt ceNoiseB
    rw [hs, LinearIsometryEquiv.coe_refl, id_eq, ← add_smul]
    norm_num
  have hdrift : ceDrift = 2 := by
    unfold ceDrift
    rw [hA, hB, cosSim_self hne,
      cosSim_smul_smul hne (by norm_num : (20 : ℝ) ≠ 0) (by norm_num : (-10 : ℝ) ≠ 0)]
    rw [show |(20 : ℝ)| = 20 by norm_num, show |(-10 : ℝ)| = 10 by norm_num]
    norm_num
  refine ⟨hdrift, ?_⟩
  rw [hdrift]
  norm_num

/-- C2 (amended): the drift window is what the scripts enforce at runtime —
validate_sap.py Check 2 passes exactly when 0 < drift < 0.1 — and what the
engine guarantees is a noise-relative bound: whenever both noise draws are at
most ε < 1 times the norm of the corresponding scaled-transformed plaintext
(ε scaling with β), the drift is at most 4ε / (1 - ε), a bound that shrinks
monotonically as ε shrinks.  The unconditional window (0, 0.1) of the
original claim fails for unlucky draws (see the counterexample). -/
theorem sap_drift_amended :
    (∀ simPlain simCipher : ℝ,
      sapCheck2 simPlain simCipher = .pass ↔
        (0 < |simPlain - simCipher| ∧ |simPlain - simCipher| < 0.1)) ∧
    (∀ (M : EmbVec ≃ₗᵢ[ℝ] EmbVec) (s ε : ℝ) (a b na nb : EmbVec),
      0 < s → ε < 1 → a ≠ 0 → b ≠ 0 →
      ‖na‖ ≤ ε * ‖s • M a‖ → ‖nb‖ ≤ ε * ‖s • M b‖ →
      |cosSim (sapEncrypt s M a na) (sapEncrypt s M b nb) - cosSim a b| ≤
        4 * ε / (1 - ε)) ∧
    (∀ ε₁ ε₂ : ℝ, 0 ≤ ε₁ → ε₁ ≤ ε₂ → ε₂ < 1 →
      4 * ε₁ / (1 - ε₁) ≤ 4 * ε₂ / (1 - ε₂)) := by
  refine ⟨?_, ?_, fun ε₁ ε₂ h1 h2 h3 => driftBound_mono h1 h2 h3⟩
  · intro simPlain simCipher
    by_cases h : 0 < |simPlain - simCipher| ∧ |simPlain - simCipher| < 0.1 <;>
      simp [sapCheck2, h]
  · intro M s ε a b na nb hs hε ha hb hna hnb
    exact sap_cosSim_drift_le M hs hε ha hb hna hnb

/-- C3: the observed ciphertext/plaintext distance ratio approximates the
scaling factor within a tolerance widened by the noise: it deviates from `s`
by at most ‖na - nb‖ / ‖a - b‖, and validate_sap.py Check 3 accepts exactly
when the ratio is within 20% of s = 10.0 — in particular it accepts whenever
the noise difference stays below 20% of the scaled plaintext distance; no
exact equality is required. -/
theorem sap_scaling_compliance :
    (∀ distPlain distCipher : ℝ,
      sapCheck3 distPlain distCipher = .pass ↔
        |distCipher / distPlain - 10.0| < 0.2 * 10.0) ∧
    (∀ (M : EmbVec ≃ₗᵢ[ℝ] EmbVec) (s : ℝ) (a b na nb : EmbVec),
      0 < s → a ≠ b →
      |‖sapEncrypt s M a na - sapEncrypt s M b nb‖ / ‖a - b‖ - s| ≤
        ‖na - nb‖ / ‖a - b‖) ∧
    (∀ (M : EmbVec ≃ₗᵢ[ℝ] EmbVec) (a b na nb : EmbVec),
      a ≠ b → ‖na - nb‖ < 2 * ‖a - b‖ →
      sapCheck3 ‖a - b‖ ‖sapEncrypt 10 M a na - sapEncrypt 10 M b nb‖ = .pass) := by
  refine ⟨?_, ?_, ?_⟩
  · intro distPlain distCipher
    by_cases h : |distCipher / distPlain - 10.0| < 0.2 * 10.0 <;>
      simp [sapCheck3, h]
  · intro M s a b na nb hs hab
    exact sap_dist_ratio_le M hs hab na nb
  · intro M a b na nb hab hN
    have hP : (0 : ℝ) < ‖a - b‖ := norm_pos_iff.mpr (sub_ne_zero.mpr hab)
    have habs := sap_dist_ratio_le M (show (0 : ℝ) < 10 by norm_num) hab na nb
    have h2 : ‖na - nb‖ / ‖a - b‖ < 2 := by
      rw [div_lt_iff hP]
      linarith
    have hcond : |‖sapEncrypt 10 M a na - sapEncrypt 10 M b nb‖ / ‖a - b‖ -
        10.0| < 0.2 * 10.0 := by
      have e1 : (10.0 : ℝ) = 10 := by norm_num
      rw [e1]
      linarith
    simp [sapCheck3, hcond]

/-- C9: validate_plugin.py additionally requires — beyond anything the spec
states — that the Euclidean distance between the plaintext and its own
ciphertext exceed 0.1 (the "Privacy Check", lines 114-122): a run that
reaches ALL CHECKS PASSED has moved the vector by more than 0.1, and a run
with distance ≤ 0.1 exits with failure. -/
theorem plugin_privacy_distance_check :
    (∀ vecA vecB encA1 encA2 encB : List ℝ,
      pluginChecks vecA vecB encA1 encA2 encB = .pass →
        0.1 < l2norm (subList vecA encA1)) ∧
    (∀ vecA vecB encA1 encA2 encB : List ℝ,
      l2norm (subList vecA encA1) ≤ 0.1 →
        pluginChecks vecA vecB encA1 encA2 encB = .fail) := by
  constructor
  · intro vecA vecB encA1 encA2 encB h
    unfold pluginChecks at h
    split at h
    · simp at h
    · split at h
      · split at h
        · assumption
        · simp at h
      · simp at h
  · intro vecA vecB encA1 encA2 encB hle
    unfold pluginChecks
    split
    · rfl
    · split
      · rw [if_neg (not_lt.mpr hle)]
      · rfl

/-- C10: validate_hardening.py's rejection tests count any raised exception
as success.  Test A (oversized dimension) passes on InvalidRequest and on
every other exception type alike, and fails only when the write returns
normally; Test B (NaN/Infinity vectors) does the same via a bare
`except Exception`.  A passing run therefore does not distinguish a genuine
InvalidDimension / MalformedVector rejection from an unrelated transport
failure. -/
theorem hardening_rejection_indiscriminate :
    (∀ typeName : String,
      testA_oversized_rotate (.otherException typeName) = .pass) ∧
    testA_oversized_rotate .invalidRequest = .pass ∧
    testA_oversized_rotate .ok = .fail ∧
    (∀ typeName : String,
      testB_nonfinite_encrypt (.otherException typeName) = .pass) ∧
    testB_nonfinite_encrypt .invalidRequest = .pass ∧
    testB_nonfinite_encrypt .ok = .fail ∧
    (∀ typeName : String,
      testA_oversized_rotate (.otherException typeName) =
        testA_oversized_rotate .invalidRequest) :=
  ⟨fun _ => rfl, rfl, rfl, fun _ => rfl, rfl, rfl, fun _ => rfl⟩

end VectorDPE
